import Mathlib

/-!
Shallow embedding of the `sonic-data-platform` repository
(`app/main.py` and `app/secrets_manager.py`): a FastAPI service that runs
the Spotify OAuth authorization-code flow and persists refresh tokens in
Google Secret Manager.

Modelling conventions:
* Python `str | None` values (e.g. `os.getenv`, `dict.get`, absent query
  parameters and headers) become `Option String`; Python truthiness of such
  a value (`if not x`) is `pyTruthy` / the `pyStr` projection (both `None`
  and the empty string are falsy).
* The Secret Manager backend is a `Store`: an association list from secret
  id to its list of payload versions, oldest first; "latest" is the last
  element.  The GCP client calls `get_secret`, `create_secret`,
  `add_secret_version`, `access_secret_version` are embedded as functions
  on `Store` that return `Except Unit _` (an `error` is the client raising).
* A payload byte string is `Payload`: either the `json.dumps` serialization
  of a credential record, or bytes that fail to parse as JSON.
* Concurrent interference from other requests between the existence check
  and the following client calls inside `create_or_update_secret` is an
  explicit store transition `t : Store → Store`; a sequential, isolated
  call is `t = id`.
* Network faults of outbound HTTP calls are modelled by the oracle
  returning `none` (the `httpx` call raising), and network/permission
  faults of the secret-store read path by an explicit `fault` flag.
-/

/-- Python truthiness of a `str | None` value: `None` and `""` are falsy. -/
def pyTruthy : Option String → Bool
  | none => false
  | some s => s != ""

/-- Truthy projection of a `str | None` value: `some s` exactly when the
value is a non-empty string (used to embed `if not x` guards that then keep
using `x`). -/
def pyStr : Option String → Option String
  | none => none
  | some s => if s = "" then none else some s

/-- The credential record assembled by the callback handler and stored as
JSON (`main.py`, `payload = json.dumps({...})`). -/
structure CredRecord where
  spotify_user_id : String
  display_name : String
  refresh_token : String
  scope : Option String
  created_at : String
deriving DecidableEq, Repr

/-- Payload bytes of one secret version: either the serialization of a
credential record, or bytes on which `json.loads` raises. -/
inductive Payload where
  | record (r : CredRecord)
  | malformed (bytes : String)
deriving DecidableEq, Repr

/-- `json.loads` on stored payload bytes, restricted to the two payload
shapes of the model: a credential record parses to itself, malformed bytes
raise (here: `none`). -/
def json_loads : Payload → Option CredRecord
  | .record r => some r
  | .malformed _ => none

/-- The Secret Manager backend state: secret ids with their version lists,
oldest version first. -/
structure Store where
  secrets : List (String × List Payload)
deriving DecidableEq, Repr

/-- Version list of a secret id, `none` when no secret with that id exists
(first matching entry; the backend keeps ids unique). -/
def versionsOf (sid : String) : List (String × List Payload) → Option (List Payload)
  | [] => none
  | (n, vs) :: rest => if n = sid then some vs else versionsOf sid rest

/-- Appends a payload as a new version of the named secret; `none` when the
secret does not exist. -/
def appendVersion (sid : String) (p : Payload) :
    List (String × List Payload) → Option (List (String × List Payload))
  | [] => none
  | (n, vs) :: rest =>
    if n = sid then some ((n, vs ++ [p]) :: rest)
    else (appendVersion sid p rest).map (fun l => (n, vs) :: l)

/-- `client.get_secret`: raises (`error`) when the secret does not exist. -/
def get_secret (s : Store) (sid : String) : Except Unit Unit :=
  match versionsOf sid s.secrets with
  | some _ => .ok ()
  | none => .error ()

/-- `client.create_secret`: creates an empty secret; raises `AlreadyExists`
(`error`) when a secret with that id is already present. -/
def create_secret (s : Store) (sid : String) : Except Unit Store :=
  match versionsOf sid s.secrets with
  | some _ => .error ()
  | none => .ok ⟨s.secrets ++ [(sid, [])]⟩

/-- `client.add_secret_version`: appends the payload as the new latest
version; raises (`error`) when the secret does not exist. -/
def add_secret_version (s : Store) (sid : String) (p : Payload) : Except Unit Store :=
  match appendVersion sid p s.secrets with
  | some l => .ok ⟨l⟩
  | none => .error ()

/-- `client.access_secret_version` on `versions/latest`: raises (`error`)
when the secret does not exist or has no versions. -/
def access_latest (s : Store) (sid : String) : Except Unit Payload :=
  match versionsOf sid s.secrets with
  | none => .error ()
  | some vs =>
    match vs.getLast? with
    | none => .error ()
    | some p => .ok p

/-- Latest stored payload of a secret, as an `Option` (for specifications). -/
def latestPayload (s : Store) (sid : String) : Option Payload :=
  (versionsOf sid s.secrets).bind List.getLast?

/-- `SecretManagerClient.create_or_update_secret`: tries `get_secret`; on
failure calls `create_secret` (NOT wrapped in any handler, so its failure
propagates); then `add_secret_version`.  `t` is the store transition other
concurrent requests perform between the existence check and the following
client calls (`id` for a sequential call).  Returns the outcome (`error` =
the Python method raised) together with the resulting store state. -/
def create_or_update_secret (secret_id : String) (payload : Payload)
    (t : Store → Store) (s : Store) : Except Unit Unit × Store :=
  let s' := t s
  match get_secret s secret_id with
  | .ok _ =>
    match add_secret_version s' secret_id payload with
    | .ok s'' => (.ok (), s'')
    | .error e => (.error e, s')
  | .error _ =>
    match create_secret s' secret_id with
    | .error e => (.error e, s')
    | .ok s'' =>
      match add_secret_version s'' secret_id payload with
      | .ok s₃ => (.ok (), s₃)
      | .error e => (.error e, s'')

/-- `SecretManagerClient.get_secret_payload`: accesses the latest version,
decodes and `json.loads` it, returning `None` on ANY exception (secret
absent, no versions, network/permission failure — the `fault` flag — or a
parse failure). -/
def get_secret_payload (fault : Bool) (s : Store) (sid : String) : Option CredRecord :=
  if fault then none
  else
    match access_latest s sid with
    | .error _ => none
    | .ok p => json_loads p

/-- Python `str.startswith`. -/
def startswith (s pat : String) : Bool :=
  pat.toList.isPrefixOf s.toList

/-- `SecretManagerClient.list_spotify_secrets`: all secret names in the
project whose name starts with the given string. -/
def list_spotify_secrets (pfx : String) (s : Store) : List String :=
  (s.secrets.map Prod.fst).filter (fun n => startswith n pfx)

/-- The environment-derived configuration the app reads at module import
(`main.py` top level).  Field ↔ variable: `client_id` = SPOTIFY_CLIENT_ID,
`client_secret` = SPOTIFY_CLIENT_SECRET, `redirect_uri` =
SPOTIFY_REDIRECT_URI, `scopes` = SCOPES, `app_url` = APP_URL,
`admin_api_key` = ADMIN_API_KEY, `gcp_project` = GCP_PROJECT, `secret_pfx`
= the secret-name stem read from the environment (default
"spotify1-refresh-"). -/
structure Env where
  client_id : Option String
  client_secret : Option String
  redirect_uri : Option String
  scopes : Option String
  app_url : Option String
  admin_api_key : Option String
  gcp_project : Option String
  secret_pfx : Option String
deriving DecidableEq, Repr

/-- The module-level startup guard of `main.py`:
`if not (SPOTIFY_CLIENT_ID and SPOTIFY_CLIENT_SECRET and GCP_PROJECT and
SPOTIFY_REDIRECT_URI): raise Exception(...)`.  `true` iff the process
raises before serving any request. -/
def startup_raises (e : Env) : Bool :=
  !(pyTruthy e.client_id && pyTruthy e.client_secret &&
    pyTruthy e.gcp_project && pyTruthy e.redirect_uri)

/-- The configuration of a process that passed the startup guard; the
defaulted values (`scopes`, `secret_pfx`) are plain strings, the
unvalidated ones (`admin_api_key`) stay optional. -/
structure Config where
  client_id : String
  redirect_uri : String
  scopes : String
  secret_pfx : String
  admin_api_key : Option String

/-- `https://accounts.spotify.com/authorize`. -/
def SPOTIFY_AUTHORIZE_URL : String := "https://accounts.spotify.com/authorize"

/-- One byte of `urllib.parse.quote_plus`: alphanumerics and `_.-~` kept,
space becomes `+`, every other byte is percent-encoded. -/
def quoteByte (b : UInt8) : String :=
  let n := b.toNat
  let c := Char.ofNat n
  if c.isAlphanum || c = '_' || c = '.' || c = '-' || c = '~' then String.singleton c
  else if c = ' ' then "+"
  else "%" ++ String.singleton (Nat.digitChar (n / 16)).toUpper ++
    String.singleton (Nat.digitChar (n % 16)).toUpper

/-- `urllib.parse.quote_plus` over the UTF-8 bytes of a string. -/
def quote_plus (s : String) : String :=
  String.join (s.toUTF8.toList.map quoteByte)

/-- `urllib.parse.urlencode` of an ordered parameter list. -/
def urlencode (params : List (String × String)) : String :=
  String.intercalate "&" (params.map (fun kv => quote_plus kv.1 ++ "=" ++ quote_plus kv.2))

/-- The ordered parameter dict built by `build_auth_url` in `main.py`.
`state?` is the caller-supplied state (`None` by default) and `rand` the
8-hex-character draw `uuid.uuid4().hex[:8]`; the Python
`params["state"] = state or f"st-..."` replaces a `None` OR empty state
with the fresh token, and inserts `state` last. -/
def build_auth_params (cfg : Config) (state? : Option String) (rand : String) :
    List (String × String) :=
  [("client_id", cfg.client_id),
   ("response_type", "code"),
   ("redirect_uri", cfg.redirect_uri),
   ("scope", cfg.scopes),
   ("show_dialog", "true"),
   ("response_mode", "query"),
   ("prompt", "consent"),
   ("state", (pyStr state?).getD ("st-" ++ rand))]

/-- `build_auth_url`: the authorize endpoint with the urlencoded params. -/
def build_auth_url (cfg : Config) (state? : Option String) (rand : String) : String :=
  SPOTIFY_AUTHORIZE_URL ++ "?" ++ urlencode (build_auth_params cfg state? rand)

/-- Parsed JSON body of a 200-class token-endpoint response, with the
fields `callback` reads via `dict.get` (absent key = `none`). -/
structure TokenResponse where
  status : Nat
  access_token : Option String
  refresh_token : Option String
  scope : Option String
deriving DecidableEq, Repr

/-- Parsed JSON body of a profile (`/v1/me`) response; `id` and
`display_name` read via `dict.get` (absent key = `none`). -/
structure Profile where
  status : Nat
  id : Option String
  display_name : Option String
deriving DecidableEq, Repr

/-- The upstream provider, as oracles: the response of the token endpoint
for a given `code` and of the profile endpoint for a given bearer access
token; `none` is a network failure (the `httpx` call raising). -/
structure World where
  tokenExchange : String → Option TokenResponse
  profileFetch : String → Option Profile

/-- Count of outbound calls a `callback` invocation performed: token
exchanges, profile fetches, storage (`create_or_update_secret`) calls. -/
structure Trace where
  exchange : Nat
  profile : Nat
  storage : Nat
deriving DecidableEq, Repr

/-- Outcome of a `callback` invocation: a raised `HTTPException`, a
rendered `error.html` with its message, or the rendered `success.html`
with the display name and user id it surfaces. -/
inductive CallbackResult where
  | httpError (status : Nat) (detail : String)
  | errorPage (message : String)
  | successPage (display_name : String) (spotify_user_id : String)
deriving DecidableEq, Repr

/-- The `/auth/callback` handler of `main.py`.  `code` is the query
parameter (`None` when absent), `now` the `datetime.utcnow().isoformat()`
timestamp, `t` the concurrent store interference passed through to
`create_or_update_secret` (`id` for an isolated run), `s` the secret store
at entry.  Returns the rendered outcome, the resulting store, and the
outbound-call trace. -/
def callback (cfg : Config) (w : World) (t : Store → Store)
    (code : Option String) (now : String) (s : Store) :
    CallbackResult × Store × Trace :=
  match pyStr code with
  | none => (.httpError 400 "Missing code parameter", s, ⟨0, 0, 0⟩)
  | some c =>
    match w.tokenExchange c with
    | none => (.errorPage "Spotify token exchange failed.", s, ⟨1, 0, 0⟩)
    | some tokenRes =>
      if tokenRes.status ≠ 200 then
        (.errorPage "Failed to exchange code.", s, ⟨1, 0, 0⟩)
      else
        match pyStr tokenRes.access_token, pyStr tokenRes.refresh_token with
        | some access_token, some refresh_token =>
          (match w.profileFetch access_token with
           | none => (.errorPage "Failed to fetch Spotify profile.", s, ⟨1, 1, 0⟩)
           | some me =>
             if me.status ≠ 200 then
               (.errorPage "Spotify profile error.", s, ⟨1, 1, 0⟩)
             else
               match pyStr me.id with
               | none => (.errorPage "Profile missing ID.", s, ⟨1, 1, 0⟩)
               | some spotify_user_id =>
                 let display_name := me.display_name.getD ""
                 let secret_name := cfg.secret_pfx ++ spotify_user_id
                 let payload : Payload :=
                   .record ⟨spotify_user_id, display_name, refresh_token, tokenRes.scope, now⟩
                 match create_or_update_secret secret_name payload t s with
                 | (.ok _, s') => (.successPage display_name spotify_user_id, s', ⟨1, 1, 1⟩)
                 | (.error _, s') => (.errorPage "Failed to store credentials.", s', ⟨1, 1, 1⟩))
        | _, _ => (.errorPage "Missing tokens.", s, ⟨1, 0, 0⟩)

/-- The `/admin/users` handler: compares the `x-api-key` header (`None`
when absent) against ADMIN_API_KEY, then lists prefixed secrets and fetches
each payload, skipping absent/unparseable ones.  Second component: how many
secret-store operations were performed (one list call plus one
`get_secret_payload` per listed name). -/
def admin_users (cfg : Config) (x_api_key : Option String) (fault : Bool)
    (s : Store) : Except (Nat × String) (List (String × String)) × Nat :=
  if x_api_key ≠ cfg.admin_api_key then (.error (401, "Unauthorized"), 0)
  else
    let names := list_spotify_secrets cfg.secret_pfx s
    let users := names.filterMap (fun n =>
      (get_secret_payload fault s n).map (fun r => (r.spotify_user_id, r.display_name)))
    (.ok users, 1 + names.length)

/-- The `/internal/get-token/{spotify_user_id}` handler: same header gate,
then one `get_secret_payload` on `SPOTIFY_SECRET_PREFIX + spotify_user_id`,
404 when it returns `None`.  Second component: secret-store operations
performed. -/
def get_token (cfg : Config) (spotify_user_id : String) (x_api_key : Option String)
    (fault : Bool) (s : Store) : Except (Nat × String) CredRecord × Nat :=
  if x_api_key ≠ cfg.admin_api_key then (.error (401, "Unauthorized"), 0)
  else
    match get_secret_payload fault s (cfg.secret_pfx ++ spotify_user_id) with
    | none => (.error (404, "User not found"), 1)
    | some p => (.ok p, 1)

/-! Concrete fixtures: the spec's end-to-end scenario (`code=abc123`,
tokens `AT1`/`RT1`, user `u789`/`Jane`) and small stores/configs used to
evaluate the development on closed inputs. -/

/-- The credential record of the spec's end-to-end scenario. -/
def rec1 : CredRecord :=
  ⟨"u789", "Jane", "RT1", some "user-read-email", "T0"⟩

/-- Its serialized payload. -/
def pl1 : Payload := .record rec1

/-- A config with default secret-name stem and no ADMIN_API_KEY set. -/
def cfg0 : Config :=
  ⟨"CID", "https://app.example/auth/callback", "user-read-email", "spotify1-refresh-", none⟩

/-- The same config with ADMIN_API_KEY set to `"k1"`. -/
def cfg1 : Config :=
  ⟨"CID", "https://app.example/auth/callback", "user-read-email", "spotify1-refresh-", some "k1"⟩

/-- A store holding the scenario record as the single version of
`spotify1-refresh-u789`. -/
def store0 : Store := ⟨[("spotify1-refresh-u789", [pl1])]⟩

/-- Concurrent interference that creates `spotify1-refresh-u789` between
the existence check and the create call (the check-then-act race of a
second onboarding request for the same new user). -/
def raceT : Store → Store := fun s =>
  match create_secret s "spotify1-refresh-u789" with
  | .ok s' => s'
  | .error _ => s

/-- The provider of the end-to-end scenario: exchange of `abc123` yields
200 with `AT1`/`RT1`, the profile for `AT1` is 200 with `u789`/`Jane`. -/
def w0 : World :=
  { tokenExchange := fun c =>
      if c = "abc123" then some ⟨200, some "AT1", some "RT1", some "user-read-email"⟩ else none,
    profileFetch := fun a =>
      if a = "AT1" then some ⟨200, some "u789", some "Jane"⟩ else none }

/-- A provider whose token exchange answers 299 (2xx but not 200) without
a refresh token. -/
def w6 : World :=
  { tokenExchange := fun c =>
      if c = "abc123" then some ⟨299, some "AT1", none, none⟩ else none,
    profileFetch := fun _ => none }

/-- A provider whose exchange is fine but whose profile endpoint answers
201 (2xx but not 200) without an id. -/
def w7 : World :=
  { tokenExchange := fun c =>
      if c = "abc123" then some ⟨200, some "AT1", some "RT1", some "user-read-email"⟩ else none,
    profileFetch := fun a =>
      if a = "AT1" then some ⟨201, none, none⟩ else none }

/-- An environment with the four guarded variables set but APP_URL and
ADMIN_API_KEY absent. -/
def env1 : Env :=
  ⟨some "CID", some "CSECRET", some "https://app.example/auth/callback",
   none, none, none, some "proj-1", none⟩

/-- A provider whose token exchange answers 200 with an access token but
no refresh token. -/
def w8 : World :=
  { tokenExchange := fun c =>
      if c = "abc123" then some ⟨200, some "AT1", none, none⟩ else none,
    profileFetch := fun _ => none }

/-- A provider whose exchange is fine and whose profile endpoint answers
200 without an id. -/
def w9 : World :=
  { tokenExchange := fun c =>
      if c = "abc123" then some ⟨200, some "AT1", some "RT1", some "user-read-email"⟩ else none,
    profileFetch := fun a =>
      if a = "AT1" then some ⟨200, none, some "Jane"⟩ else none }

/-! Helper lemmas about the store operations. -/

theorem isPrefixOf_self_append (l l₂ : List Char) : l.isPrefixOf (l ++ l₂) = true := by
  induction l with
  | nil => simp [List.isPrefixOf]
  | cons a as ih => simp [List.isPrefixOf, ih]

theorem startswith_append (p u : String) : startswith (p ++ u) p = true := by
  show (p.data.isPrefixOf (p ++ u).data) = true
  rw [String.data_append]
  exact isPrefixOf_self_append p.data u.data

theorem versionsOf_none_count (sid : String) :
    ∀ l : List (String × List Payload), versionsOf sid l = none →
      (l.map Prod.fst).count sid = 0 := by
  intro l
  induction l with
  | nil => intro _; rfl
  | cons e rest ih =>
    obtain ⟨n, vs⟩ := e
    intro h
    by_cases hn : n = sid
    · simp [versionsOf, hn] at h
    · simp only [versionsOf, if_neg hn] at h
      simpa [List.count_cons, hn] using ih h

theorem versionsOf_append_of_none (sid : String) :
    ∀ l l₂ : List (String × List Payload), versionsOf sid l = none →
      versionsOf sid (l ++ l₂) = versionsOf sid l₂ := by
  intro l l₂
  induction l with
  | nil => intro _; rfl
  | cons e rest ih =>
    obtain ⟨n, vs⟩ := e
    intro h
    by_cases hn : n = sid
    · simp [versionsOf, hn] at h
    · simp only [versionsOf, if_neg hn] at h ⊢
      exact ih h

theorem appendVersion_spec (sid : String) (p : Payload) :
    ∀ {l l' : List (String × List Payload)}, appendVersion sid p l = some l' →
      versionsOf sid l' = (versionsOf sid l).map (fun vs => vs ++ [p]) ∧
      l'.map Prod.fst = l.map Prod.fst := by
  intro l
  induction l with
  | nil => intro l' h; simp [appendVersion] at h
  | cons e rest ih =>
    obtain ⟨n, vs⟩ := e
    intro l' h
    by_cases hn : n = sid
    · simp only [appendVersion, if_pos hn] at h
      subst hn
      cases h
      simp [versionsOf]
    · simp only [appendVersion, if_neg hn] at h
      cases hrec : appendVersion sid p rest with
      | none => rw [hrec] at h; simp at h
      | some l₂ =>
        rw [hrec] at h
        simp only [Option.map] at h
        cases h
        have := ih hrec
        simp [versionsOf, if_neg hn, this.1, this.2]

theorem appendVersion_none_iff (sid : String) (p : Payload) :
    ∀ l : List (String × List Payload),
      appendVersion sid p l = none ↔ versionsOf sid l = none := by
  intro l
  induction l with
  | nil => simp [appendVersion, versionsOf]
  | cons e rest ih =>
    obtain ⟨n, vs⟩ := e
    by_cases hn : n = sid
    · simp [appendVersion, versionsOf, hn]
    · simp [appendVersion, versionsOf, hn, ih]

theorem appendVersion_self_append (sid : String) (p : Payload) (vs : List Payload) :
    ∀ l : List (String × List Payload), versionsOf sid l = none →
      appendVersion sid p (l ++ [(sid, vs)]) = some (l ++ [(sid, vs ++ [p])]) := by
  intro l
  induction l with
  | nil => intro _; simp [appendVersion]
  | cons e rest ih =>
    obtain ⟨n, u⟩ := e
    intro h
    by_cases hn : n = sid
    · simp [versionsOf, hn] at h
    · simp only [versionsOf, if_neg hn] at h
      simp [appendVersion, if_neg hn, ih h]

theorem create_or_update_of_absent (sid : String) (p : Payload) (s : Store)
    (h : versionsOf sid s.secrets = none) :
    create_or_update_secret sid p id s = (.ok (), ⟨s.secrets ++ [(sid, [p])]⟩) := by
  have hap := appendVersion_self_append sid p [] s.secrets h
  simp only [List.nil_append] at hap
  simp [create_or_update_secret, get_secret, create_secret, add_secret_version, h, hap]

theorem create_or_update_of_present (sid : String) (p : Payload) (s : Store)
    (vs : List Payload) (h : versionsOf sid s.secrets = some vs) :
    (create_or_update_secret sid p id s).1 = .ok () ∧
    versionsOf sid (create_or_update_secret sid p id s).2.secrets = some (vs ++ [p]) ∧
    (create_or_update_secret sid p id s).2.secrets.map Prod.fst = s.secrets.map Prod.fst := by
  simp only [create_or_update_secret, get_secret, add_secret_version, h, id]
  cases hap : appendVersion sid p s.secrets with
  | none => rw [appendVersion_none_iff] at hap; rw [hap] at h; cases h
  | some l' =>
    have hs := appendVersion_spec sid p hap
    rw [h] at hs
    exact ⟨rfl, by simpa using hs.1, hs.2⟩

theorem create_or_update_ok_latest (sid : String) (p : Payload) (t : Store → Store)
    (s : Store) (h : (create_or_update_secret sid p t s).1 = .ok ()) :
    latestPayload (create_or_update_secret sid p t s).2 sid = some p := by
  simp only [create_or_update_secret, get_secret, create_secret, add_secret_version] at h ⊢
  cases hv : versionsOf sid s.secrets with
  | some vs =>
    simp only [hv] at h ⊢
    cases hap : appendVersion sid p (t s).secrets with
    | none => simp [hap] at h
    | some l' =>
      have hs := appendVersion_spec sid p hap
      cases hv' : versionsOf sid (t s).secrets with
      | none => rw [← appendVersion_none_iff sid p] at hv'; rw [hv'] at hap; cases hap
      | some vs' =>
        simp [hap, latestPayload, hs.1, hv', List.getLast?_concat]
  | none =>
    simp only [hv] at h ⊢
    cases hv' : versionsOf sid (t s).secrets with
    | some vs' => simp [hv'] at h
    | none =>
      have hap := appendVersion_self_append sid p [] (t s).secrets hv'
      simp only [List.nil_append] at hap
      simp only [hap, latestPayload]
      rw [versionsOf_append_of_none sid (t s).secrets [(sid, [p])] hv']
      simp [versionsOf]

/-! Helper lemmas about the callback handler. -/

theorem pyStr_some {c : String} (h : c ≠ "") : pyStr (some c) = some c := by
  simp [pyStr, h]

theorem callback_success_eq (cfg : Config) (w : World) (t : Store → Store)
    (s s₂ : Store) (c now acc rt uid : String) (tr : TokenResponse) (me : Profile)
    (hc : c ≠ "")
    (hex : w.tokenExchange c = some tr)
    (h200 : tr.status = 200)
    (hat : pyStr tr.access_token = some acc)
    (hrt : pyStr tr.refresh_token = some rt)
    (hme : w.profileFetch acc = some me)
    (hms : me.status = 200)
    (hid : pyStr me.id = some uid)
    (hst : create_or_update_secret (cfg.secret_pfx ++ uid)
        (.record ⟨uid, me.display_name.getD "", rt, tr.scope, now⟩) t s = (.ok (), s₂)) :
    callback cfg w t (some c) now s =
      (.successPage (me.display_name.getD "") uid, s₂, ⟨1, 1, 1⟩) := by
  simp only [callback, pyStr_some hc, hex, h200, hat, hrt, hme, hms, hid, hst]
  simp

theorem callback_exchange_not200 (cfg : Config) (w : World) (t : Store → Store)
    (s : Store) (c now : String) (tr : TokenResponse)
    (hc : c ≠ "")
    (hex : w.tokenExchange c = some tr)
    (h : tr.status ≠ 200) :
    callback cfg w t (some c) now s =
      (.errorPage "Failed to exchange code.", s, ⟨1, 0, 0⟩) := by
  simp only [callback, pyStr_some hc, hex]
  simp [h]

theorem callback_profile_not200 (cfg : Config) (w : World) (t : Store → Store)
    (s : Store) (c now acc rt : String) (tr : TokenResponse) (me : Profile)
    (hc : c ≠ "")
    (hex : w.tokenExchange c = some tr)
    (h200 : tr.status = 200)
    (hat : pyStr tr.access_token = some acc)
    (hrt : pyStr tr.refresh_token = some rt)
    (hme : w.profileFetch acc = some me)
    (h : me.status ≠ 200) :
    callback cfg w t (some c) now s =
      (.errorPage "Spotify profile error.", s, ⟨1, 1, 0⟩) := by
  simp only [callback, pyStr_some hc, hex, h200, hat, hrt, hme]
  simp [h]

/-! The claims. -/

/-- C2: the claim says a failure of the creation step caused by the secret
already existing (a concurrent onboarding created it between the existence
check and the create call) is non-fatal and the operation still appends the
payload as a new version.  The code contradicts this: `create_secret` is
called inside the `except` handler of `get_secret` with no handler of its
own, so its `AlreadyExists` error propagates out of
`create_or_update_secret` and `add_secret_version` never runs.  Starting
from an empty store, with a concurrent request creating
`spotify1-refresh-u789` inside the race window, the call raises and the
secret is left with zero versions. -/
theorem create_or_update_race_propagates :
    create_or_update_secret "spotify1-refresh-u789" pl1 raceT ⟨[]⟩ =
      (.error (), ⟨[("spotify1-refresh-u789", [])]⟩) := rfl

/-- C5 counterexample: an environment with SPOTIFY_CLIENT_ID,
SPOTIFY_CLIENT_SECRET, SPOTIFY_REDIRECT_URI and GCP_PROJECT set but
APP_URL and ADMIN_API_KEY absent passes the startup guard without raising,
although the claim demands a failure whenever any of the six listed values
(including public app URL and admin shared-secret key) is absent. -/
theorem startup_guard_counterexample : startup_raises env1 = false := rfl

/-- C5 (amended): the startup guard validates exactly the client
identifier, client secret, store project identifier and redirect URI — it
raises before serving any request iff one of those four is absent or
empty; APP_URL and ADMIN_API_KEY are read but never validated. -/
theorem startup_raises_iff (e : Env) :
    startup_raises e = true ↔
      (pyTruthy e.client_id = false ∨ pyTruthy e.client_secret = false ∨
       pyTruthy e.gcp_project = false ∨ pyTruthy e.redirect_uri = false) := by
  cases h₁ : pyTruthy e.client_id <;> cases h₂ : pyTruthy e.client_secret <;>
    cases h₃ : pyTruthy e.gcp_project <;> cases h₄ : pyTruthy e.redirect_uri <;>
      simp [startup_raises, h₁, h₂, h₃, h₄]

/-- C8: a callback invocation with an absent `code` parameter raises the
400 `HTTPException` and performs zero outbound calls (no token exchange, no
profile fetch, no storage call); the store is untouched. -/
theorem missing_code_400_no_calls (cfg : Config) (w : World) (t : Store → Store)
    (now : String) (s : Store) :
    callback cfg w t none now s =
      (.httpError 400 "Missing code parameter", s, ⟨0, 0, 0⟩) := rfl

/-- C9: `get_secret_payload` is total (never raises to its caller) and
returns `none` when the network/permission fault flag is set, when the
secret was never created, when it has no versions, and when the latest
payload fails to parse as JSON; otherwise it returns the parsed JSON
payload of the latest version. -/
theorem get_secret_payload_never_raises (fault : Bool) (s : Store) (sid : String) :
    (fault = true → get_secret_payload fault s sid = none) ∧
    (versionsOf sid s.secrets = none → get_secret_payload fault s sid = none) ∧
    (versionsOf sid s.secrets = some [] → get_secret_payload fault s sid = none) ∧
    (∀ bytes, latestPayload s sid = some (.malformed bytes) →
      get_secret_payload fault s sid = none) ∧
    (∀ r, fault = false → latestPayload s sid = some (.record r) →
      get_secret_payload fault s sid = some r) := by
  refine ⟨fun h => by simp [get_secret_payload, h], ?_, ?_, ?_, ?_⟩
  · intro h
    cases fault <;> simp [get_secret_payload, access_latest, h]
  · intro h
    cases fault <;> simp [get_secret_payload, access_latest, h]
  · intro bytes h
    rcases Option.bind_eq_some.mp h with ⟨vs, hvs, hlast⟩
    cases fault <;> simp [get_secret_payload, access_latest, hvs, hlast, json_loads]
  · intro r hf h
    subst hf
    rcases Option.bind_eq_some.mp h with ⟨vs, hvs, hlast⟩
    simp [get_secret_payload, access_latest, hvs, hlast, json_loads]

/-- C9 witness: on the fixtures, a never-created name yields `none` and the
stored scenario record is returned for its name. -/
theorem get_secret_payload_never_raises_w :
    get_secret_payload false ⟨[]⟩ "spotify1-refresh-u789" = none ∧
    get_secret_payload false store0 "spotify1-refresh-u789" = some rec1 :=
  ⟨(get_secret_payload_never_raises false ⟨[]⟩ "spotify1-refresh-u789").2.1 (by decide),
   (get_secret_payload_never_raises false store0 "spotify1-refresh-u789").2.2.2.2 rec1
     rfl (by decide)⟩

/-- C10: in `build_auth_url`'s parameter dict, a caller-supplied state
equal to the empty string is treated the same as no state at all — the
`state` parameter becomes the freshly drawn token `st-` ++ `rand` (where
`rand` embeds `uuid.uuid4().hex[:8]`, eight hex characters) — and only a
non-empty supplied state `st` is passed through as the `state` value. -/
theorem build_auth_state_param (cfg : Config) (rand : String) :
    ((build_auth_params cfg none rand).lookup "state" = some ("st-" ++ rand)) ∧
    ((build_auth_params cfg (some "") rand).lookup "state" = some ("st-" ++ rand)) ∧
    (∀ st : String, st ≠ "" →
      (build_auth_params cfg (some st) rand).lookup "state" = some st) := by
  refine ⟨rfl, rfl, ?_⟩
  intro st h
  simp only [build_auth_params, pyStr, if_neg h]
  rfl

/-- C10 witness: concrete instance with a non-empty supplied state. -/
theorem build_auth_state_param_w :
    (build_auth_params cfg0 (some "xyz") "deadbeef").lookup "state" = some "xyz" :=
  (build_auth_state_param cfg0 "deadbeef").2.2 "xyz" (by decide)

/-- C1: for every callback invocation in which the token exchange succeeds
(its response is 2xx carrying both an access and a refresh token), the
profile fetch succeeds (it is performed — `hperf` records that the
invocation made all three outbound calls — and its response is 2xx with a
non-empty id), and the storage call succeeds, the stored payload is the
record with `spotify_user_id` = the profile id, `refresh_token` = the
exchange response's refresh token, `scope` = the exchange response's
scope, `display_name` = the profile's display name (defaulted to ""),
persisted under the secret name `SPOTIFY_SECRET_PREFIX ++ id`, and the
success outcome carries that display name and user id.  (The fetch and
storage steps run only when the statuses are exactly 200, which the
performed-call hypothesis encodes.) -/
theorem callback_success_stores_record (cfg : Config) (w : World) (t : Store → Store)
    (s : Store) (c now acc rt uid : String) (tr : TokenResponse) (me : Profile)
    (hc : c ≠ "")
    (hex : w.tokenExchange c = some tr)
    (h2xx : 200 ≤ tr.status ∧ tr.status < 300)
    (hat : pyStr tr.access_token = some acc)
    (hrt : pyStr tr.refresh_token = some rt)
    (hme : w.profileFetch acc = some me)
    (hms2xx : 200 ≤ me.status ∧ me.status < 300)
    (hid : pyStr me.id = some uid)
    (hperf : (callback cfg w t (some c) now s).2.2 = ⟨1, 1, 1⟩)
    (hst : (create_or_update_secret (cfg.secret_pfx ++ uid)
        (.record ⟨uid, me.display_name.getD "", rt, tr.scope, now⟩) t s).1 = .ok ()) :
    callback cfg w t (some c) now s =
      (.successPage (me.display_name.getD "") uid,
       (create_or_update_secret (cfg.secret_pfx ++ uid)
          (.record ⟨uid, me.display_name.getD "", rt, tr.scope, now⟩) t s).2,
       ⟨1, 1, 1⟩) ∧
    latestPayload (callback cfg w t (some c) now s).2.1 (cfg.secret_pfx ++ uid) =
      some (.record ⟨uid, me.display_name.getD "", rt, tr.scope, now⟩) := by
  have h200 : tr.status = 200 := by
    by_contra hne
    rw [callback_exchange_not200 cfg w t s c now tr hc hex hne] at hperf
    simp at hperf
  have hms : me.status = 200 := by
    by_contra hne
    rw [callback_profile_not200 cfg w t s c now acc rt tr me hc hex h200 hat hrt hme hne]
      at hperf
    simp at hperf
  have hpair : create_or_update_secret (cfg.secret_pfx ++ uid)
      (.record ⟨uid, me.display_name.getD "", rt, tr.scope, now⟩) t s =
      (.ok (), (create_or_update_secret (cfg.secret_pfx ++ uid)
        (.record ⟨uid, me.display_name.getD "", rt, tr.scope, now⟩) t s).2) := by
    rw [← hst]
  have hmain := callback_success_eq cfg w t s _ c now acc rt uid tr me hc hex h200 hat hrt
    hme hms hid hpair
  refine ⟨hmain, ?_⟩
  rw [hmain]
  exact create_or_update_ok_latest _ _ t s hst

/-- C1 witness: the spec's end-to-end scenario (`code=abc123`, tokens
`AT1`/`RT1`, profile `u789`/`Jane`) on an empty store. -/
theorem callback_success_stores_record_w :
    callback cfg0 w0 id (some "abc123") "T0" ⟨[]⟩ =
      (.successPage "Jane" "u789", ⟨[("spotify1-refresh-u789", [pl1])]⟩, ⟨1, 1, 1⟩) ∧
    latestPayload (callback cfg0 w0 id (some "abc123") "T0" ⟨[]⟩).2.1
      "spotify1-refresh-u789" = some pl1 := by
  have h := callback_success_stores_record cfg0 w0 id ⟨[]⟩ "abc123" "T0" "AT1" "RT1" "u789"
    ⟨200, some "AT1", some "RT1", some "user-read-email"⟩ ⟨200, some "u789", some "Jane"⟩
    (by decide) (by decide) (by decide) (by decide) (by decide) (by decide) (by decide)
    (by decide) (by decide) rfl
  exact ⟨h.1, h.2⟩

/-- C3: two successful callback invocations for the same platform user id,
run sequentially (t = `id`) from a store in which that user's secret does
not yet exist, produce two versions of ONE secret: the named secret ends
with exactly two versions, and `list_spotify_secrets` reports its name
exactly once. -/
theorem callback_twice_one_secret_two_versions (cfg : Config) (w₁ w₂ : World)
    (s : Store) (c₁ c₂ now₁ now₂ acc₁ acc₂ rt₁ rt₂ uid : String)
    (tr₁ tr₂ : TokenResponse) (me₁ me₂ : Profile)
    (h0 : versionsOf (cfg.secret_pfx ++ uid) s.secrets = none)
    (hc₁ : c₁ ≠ "") (hex₁ : w₁.tokenExchange c₁ = some tr₁) (h200₁ : tr₁.status = 200)
    (hat₁ : pyStr tr₁.access_token = some acc₁) (hrt₁ : pyStr tr₁.refresh_token = some rt₁)
    (hme₁ : w₁.profileFetch acc₁ = some me₁) (hms₁ : me₁.status = 200)
    (hid₁ : pyStr me₁.id = some uid)
    (hc₂ : c₂ ≠ "") (hex₂ : w₂.tokenExchange c₂ = some tr₂) (h200₂ : tr₂.status = 200)
    (hat₂ : pyStr tr₂.access_token = some acc₂) (hrt₂ : pyStr tr₂.refresh_token = some rt₂)
    (hme₂ : w₂.profileFetch acc₂ = some me₂) (hms₂ : me₂.status = 200)
    (hid₂ : pyStr me₂.id = some uid) :
    (versionsOf (cfg.secret_pfx ++ uid)
        (callback cfg w₂ id (some c₂) now₂
          (callback cfg w₁ id (some c₁) now₁ s).2.1).2.1.secrets).map List.length =
      some 2 ∧
    (list_spotify_secrets cfg.secret_pfx
        (callback cfg w₂ id (some c₂) now₂
          (callback cfg w₁ id (some c₁) now₁ s).2.1).2.1).count (cfg.secret_pfx ++ uid) =
      1 := by
  have hcu₁ := create_or_update_of_absent (cfg.secret_pfx ++ uid)
    (.record ⟨uid, me₁.display_name.getD "", rt₁, tr₁.scope, now₁⟩) s h0
  have hcb₁ := callback_success_eq cfg w₁ id s _ c₁ now₁ acc₁ rt₁ uid tr₁ me₁ hc₁ hex₁
    h200₁ hat₁ hrt₁ hme₁ hms₁ hid₁ hcu₁
  set nm := cfg.secret_pfx ++ uid with hnm
  set p₁ : Payload := .record ⟨uid, me₁.display_name.getD "", rt₁, tr₁.scope, now₁⟩
  set p₂ : Payload := .record ⟨uid, me₂.display_name.getD "", rt₂, tr₂.scope, now₂⟩
  set s₁ : Store := ⟨s.secrets ++ [(nm, [p₁])]⟩ with hs₁
  have hv₁ : versionsOf nm s₁.secrets = some [p₁] := by
    show versionsOf nm (s.secrets ++ [(nm, [p₁])]) = some [p₁]
    rw [versionsOf_append_of_none nm s.secrets _ h0]
    simp [versionsOf]
  have hpres := create_or_update_of_present nm p₂ s₁ [p₁] hv₁
  have hpair : create_or_update_secret nm p₂ id s₁ =
      (.ok (), (create_or_update_secret nm p₂ id s₁).2) := by
    rw [← hpres.1]
  have hcb₂ := callback_success_eq cfg w₂ id s₁ _ c₂ now₂ acc₂ rt₂ uid tr₂ me₂ hc₂ hex₂
    h200₂ hat₂ hrt₂ hme₂ hms₂ hid₂ hpair
  rw [hcb₁]
  simp only []
  rw [hcb₂]
  simp only []
  constructor
  · rw [hpres.2.1]
    rfl
  · have hnames : (create_or_update_secret nm p₂ id s₁).2.secrets.map Prod.fst =
        s.secrets.map Prod.fst ++ [nm] := by
      rw [hpres.2.2, hs₁]
      simp
    simp only [list_spotify_secrets, hnames]
    rw [List.count_filter (by simpa using startswith_append cfg.secret_pfx uid)]
    rw [List.count_append]
    rw [versionsOf_none_count nm s.secrets h0]
    simp

/-- C3 witness: the end-to-end scenario run twice from an empty store. -/
theorem callback_twice_one_secret_two_versions_w :
    (versionsOf "spotify1-refresh-u789"
        (callback cfg0 w0 id (some "abc123") "T1"
          (callback cfg0 w0 id (some "abc123") "T0" ⟨[]⟩).2.1).2.1.secrets).map
      List.length = some 2 ∧
    (list_spotify_secrets "spotify1-refresh-"
        (callback cfg0 w0 id (some "abc123") "T1"
          (callback cfg0 w0 id (some "abc123") "T0" ⟨[]⟩).2.1).2.1).count
      "spotify1-refresh-u789" = 1 := by
  have h := callback_twice_one_secret_two_versions cfg0 w0 w0 ⟨[]⟩ "abc123" "abc123"
    "T0" "T1" "AT1" "AT1" "RT1" "RT1" "u789"
    ⟨200, some "AT1", some "RT1", some "user-read-email"⟩
    ⟨200, some "AT1", some "RT1", some "user-read-email"⟩
    ⟨200, some "u789", some "Jane"⟩ ⟨200, some "u789", some "Jane"⟩
    (by decide) (by decide) (by decide) (by decide) (by decide) (by decide) (by decide)
    (by decide) (by decide) (by decide) (by decide) (by decide) (by decide) (by decide)
    (by decide) (by decide) (by decide)
  exact ⟨h.1, h.2⟩

/-- C4 counterexample: with the server-held admin key UNSET (ADMIN_API_KEY
absent from the environment — the startup guard does not require it) a
request with an absent `x-api-key` header compares `None != None`, passes
the gate, and both endpoints proceed: the list endpoint enumerates users
performing 2 store operations and the token endpoint returns the stored
credential payload, instead of the 401 with zero store operations the
claim requires for every absent-header request. -/
theorem admin_gate_unset_key_counterexample :
    admin_users cfg0 none false store0 = (.ok [("u789", "Jane")], 2) ∧
    get_token cfg0 "u789" none false store0 = (.ok rec1, 1) := by
  exact ⟨rfl, rfl⟩

/-- C4 (amended): whenever the admin key IS configured (`some k`), every
request to either admin endpoint whose `x-api-key` header is absent or
differs from `k` gets the 401 outcome with zero secret-store operations,
for every data state of the store. -/
theorem admin_gate_configured_401 (cfg : Config) (k : String)
    (hk : cfg.admin_api_key = some k) (x : Option String) (hx : x ≠ some k)
    (fault : Bool) (s : Store) (uid : String) :
    admin_users cfg x fault s = (.error (401, "Unauthorized"), 0) ∧
    get_token cfg uid x fault s = (.error (401, "Unauthorized"), 0) := by
  have hne : x ≠ cfg.admin_api_key := by rw [hk]; exact hx
  constructor
  · simp [admin_users, hne]
  · simp [get_token, hne]

/-- C4 witness: configured key `k1`, one request with a wrong key and one
with the header absent. -/
theorem admin_gate_configured_401_w :
    admin_users cfg1 (some "wrong") false store0 = (.error (401, "Unauthorized"), 0) ∧
    get_token cfg1 "u789" none false store0 = (.error (401, "Unauthorized"), 0) :=
  ⟨(admin_gate_configured_401 cfg1 "k1" rfl (some "wrong") (by decide) false store0
      "u789").1,
   (admin_gate_configured_401 cfg1 "k1" rfl none (by decide) false store0 "u789").2⟩

/-- C6 counterexample: a token-exchange response with status 299 — 2xx but
not 200 — lacking the refresh token is routed by `status_code != 200` to
the generic exchange-failure outcome ("Failed to exchange code."), not to
the distinct missing-tokens outcome the claim requires for every 2xx
response lacking a token. -/
theorem missing_tokens_2xx_counterexample :
    callback cfg0 w6 id (some "abc123") "T0" ⟨[]⟩ =
      (.errorPage "Failed to exchange code.", ⟨[]⟩, ⟨1, 0, 0⟩) := rfl

/-- C6 (amended): for every callback invocation whose token-exchange
response has status exactly 200 but lacks a refresh token or an access
token (absent or empty), the outcome is the distinct missing-tokens
outcome, the store is untouched, and zero storage calls and zero
profile-fetch calls are performed. -/
theorem missing_tokens_200_outcome (cfg : Config) (w : World) (t : Store → Store)
    (s : Store) (c now : String) (tr : TokenResponse)
    (hc : c ≠ "")
    (hex : w.tokenExchange c = some tr)
    (h200 : tr.status = 200)
    (hmiss : pyStr tr.access_token = none ∨ pyStr tr.refresh_token = none) :
    callback cfg w t (some c) now s = (.errorPage "Missing tokens.", s, ⟨1, 0, 0⟩) := by
  simp only [callback, pyStr_some hc, hex, h200]
  rcases hmiss with h | h
  · cases hr : pyStr tr.refresh_token <;> simp [h, hr]
  · cases ha : pyStr tr.access_token <;> simp [ha, h]

/-- C6 witness: status-200 exchange response with no refresh token. -/
theorem missing_tokens_200_outcome_w :
    callback cfg0 w8 id (some "abc123") "T0" ⟨[]⟩ =
      (.errorPage "Missing tokens.", ⟨[]⟩, ⟨1, 0, 0⟩) :=
  missing_tokens_200_outcome cfg0 w8 id ⟨[]⟩ "abc123" "T0"
    ⟨200, some "AT1", none, none⟩ (by decide) (by decide) (by decide) (Or.inr (by decide))

/-- C7 counterexample: a profile response with status 201 — 2xx but not
200 — and no id is routed by `status_code != 200` to the generic
profile-error outcome ("Spotify profile error."), not to the distinct
missing-identity outcome the claim requires for every 2xx profile response
without an id. -/
theorem missing_identity_2xx_counterexample :
    callback cfg0 w7 id (some "abc123") "T0" ⟨[]⟩ =
      (.errorPage "Spotify profile error.", ⟨[]⟩, ⟨1, 1, 0⟩) := rfl

/-- C7 (amended): for every callback invocation whose profile response has
status exactly 200 but contains no non-empty user id, the outcome is the
missing-identity outcome ("Profile missing ID."), the store is untouched,
and zero storage calls are performed. -/
theorem missing_identity_200_outcome (cfg : Config) (w : World) (t : Store → Store)
    (s : Store) (c now acc rt : String) (tr : TokenResponse) (me : Profile)
    (hc : c ≠ "")
    (hex : w.tokenExchange c = some tr)
    (h200 : tr.status = 200)
    (hat : pyStr tr.access_token = some acc)
    (hrt : pyStr tr.refresh_token = some rt)
    (hme : w.profileFetch acc = some me)
    (hms : me.status = 200)
    (hid : pyStr me.id = none) :
    callback cfg w t (some c) now s =
      (.errorPage "Profile missing ID.", s, ⟨1, 1, 0⟩) := by
  simp only [callback, pyStr_some hc, hex, h200, hat, hrt, hme, hms, hid]
  simp

/-- C7 witness: status-200 profile response without an id. -/
theorem missing_identity_200_outcome_w :
    callback cfg0 w9 id (some "abc123") "T0" ⟨[]⟩ =
      (.errorPage "Profile missing ID.", ⟨[]⟩, ⟨1, 1, 0⟩) :=
  missing_identity_200_outcome cfg0 w9 id ⟨[]⟩ "abc123" "T0" "AT1" "RT1"
    ⟨200, some "AT1", some "RT1", some "user-read-email"⟩ ⟨200, none, some "Jane"⟩
    (by decide) (by decide) (by decide) (by decide) (by decide) (by decide) (by decide)
    (by decide)
